import Mathlib

/-!
Shallow embedding of `Covid_Simulation.py`: a discrete-time agent-based
epidemic simulation over two schools and a background resident pool.
Python integers are modelled as `ℤ` (or `ℕ` where the source value is a
count), the float constant `students_per_family` as `ℚ`, nullable fields
as `Option`, and Python exceptions as `Option`-valued results (`none` =
the call raises).  Randomness (`random.shuffle`, `random.randint`) is
parametrised: the random draws appear as explicit arguments, constrained
by hypotheses describing exactly what the library calls can produce.
-/

/-- Days to get test results (source constant `test_lag = 1`). -/
def test_lag : ℤ := 1

/-- Source constant `first_contagious_day = 3`. -/
def first_contagious_day : ℤ := 3

/-- Source constant `last_contagious_day = 13`. -/
def last_contagious_day : ℤ := 13

/-- Source constant `first_positive_test_day = 1`. -/
def first_positive_test_day : ℤ := 1

/-- Source constant `last_positive_test_day = 16`. -/
def last_positive_test_day : ℤ := 16

/-- Source constant `students_per_family = 1.25` (a Python float, modelled
exactly as the rational 5/4). -/
def students_per_family : ℚ := 5 / 4

/-- Source constant `S1_class_size = 14`. -/
def S1_class_size : ℕ := 14

/-- Source constant `S1_teachers = 2`. -/
def S1_teachers : ℕ := 2

/-- Source constant `S1_classes_in_school = 10`. -/
def S1_classes_in_school : ℕ := 10

/-- Source constant `N_days = 90`. -/
def N_days : ℤ := 90

/-- State of one individual (Python class `person`). -/
structure person where
  name : String
  age : ℤ
  days_with_virus : ℤ
  day_infected : ℤ
  family_unit : Option ℤ
deriving Repr, DecidableEq, Inhabited

namespace person

/-- Python `person.__init__(name, age)`. -/
def init (name : String) (age : ℤ) : person :=
  { name := name, age := age, days_with_virus := -1,
    day_infected := 1000000, family_unit := none }

/-- Python `person.assign_to_family(fam)`. -/
def assign_to_family (p : person) (fam : ℤ) : person :=
  { p with family_unit := some fam }

/-- Python `person.is_sick()`. -/
def is_sick (p : person) : Bool :=
  if p.days_with_virus > -1 then true else false

/-- Python `person.tests_positive()`. -/
def tests_positive (p : person) : Bool :=
  if p.days_with_virus > first_positive_test_day ∧
      p.days_with_virus ≤ last_positive_test_day then true else false

/-- Python `person.is_contagious()`. -/
def is_contagious (p : person) : Bool :=
  if p.days_with_virus ≥ first_contagious_day ∧
      p.days_with_virus < last_contagious_day then true else false

/-- Python `person.sicken(day)`. -/
def sicken (p : person) (day : ℤ) : person :=
  if p.days_with_virus = -1 then
    { p with days_with_virus := 0, day_infected := day }
  else p

/-- Python `person.update_days_sick()`. -/
def update_days_sick (p : person) : person :=
  if p.days_with_virus ≠ -1 then
    { p with days_with_virus := p.days_with_virus + 1 }
  else p

end person

/-- State of one classroom (Python class `classroom`). -/
structure classroom where
  number : ℤ
  students : List person
  teachers : List person
  earliest_positive_test_day : Option ℤ
deriving Repr, DecidableEq, Inhabited

namespace classroom

/-- Python `classroom.__init__(number, class_size, age, num_teachers)`. -/
def init (number : ℤ) (class_size : ℕ) (age : ℤ) (num_teachers : ℕ) : classroom :=
  { number := number
    students := (List.range class_size).map fun i =>
      person.init ("student_" ++ toString number ++ "_" ++ toString i) age
    teachers := (List.range num_teachers).map fun i =>
      person.init ("teacher_" ++ toString number ++ "_" ++ toString i) 30
    earliest_positive_test_day := none }

/-- Python `classroom.assign_to_families(fam_assignments)`: pops one family
id per student, in order; `none` models the `IndexError` raised when the
assignment list runs out. -/
def assign_to_families (students : List person) (fams : List ℤ) :
    Option (List person) :=
  match students, fams with
  | [], _ => some []
  | _ :: _, [] => none
  | stdt :: rest, fam :: fams =>
    (assign_to_families rest fams).map fun r => stdt.assign_to_family fam :: r

/-- Python `classroom.any_contagious_cases_in_classroom()`. -/
def any_contagious_cases_in_classroom (c : classroom) : Bool :=
  c.students.any person.is_contagious || c.teachers.any person.is_contagious

/-- Python `classroom.sicken_all(day)`. -/
def sicken_all (c : classroom) (day : ℤ) : classroom :=
  { c with students := c.students.map (person.sicken · day),
           teachers := c.teachers.map (person.sicken · day) }

/-- Python `classroom.update_days_sick()`. -/
def update_days_sick (c : classroom) : classroom :=
  { c with students := c.students.map person.update_days_sick,
           teachers := c.teachers.map person.update_days_sick }

/-- Python `classroom.test(day)`: iterates over the students only, setting
`earliest_positive_test_day` to `day` at the first positive test while the
field is still unset. -/
def test (c : classroom) (day : ℤ) : classroom :=
  let e' := c.students.foldl
    (fun e stdt =>
      if stdt.tests_positive = true then
        if e = none then some day else e
      else e)
    c.earliest_positive_test_day
  { c with earliest_positive_test_day := e' }

/-- Python `classroom.offline(day)`. -/
def offline (c : classroom) (day : ℤ) : Bool :=
  match c.earliest_positive_test_day with
  | none => false
  | some e => if day > e + test_lag then true else false

end classroom

/-- State of one school (Python class `school`). -/
structure school where
  name : String
  classrooms : List classroom
  class_size : ℕ
deriving Repr, DecidableEq, Inhabited

namespace school

/-- Python `school.__init__`: classroom `i` (0-based) gets id `i+1` and age
`ages_list[i]` (the driver always supplies enough ages, so out-of-range
reads cannot occur on the driver's calls). -/
def init (name : String) (num_classrooms : ℕ) (class_size : ℕ)
    (ages_list : List ℤ) (teachers_per_class : ℕ) : school :=
  { name := name
    classrooms := (List.range num_classrooms).map fun (i : ℕ) =>
      classroom.init ((i : ℤ) + 1) class_size ((ages_list.get? i).getD 0)
        teachers_per_class
    class_size := class_size }

/-- Python `school.test(day)`. -/
def test (s : school) (day : ℤ) : school :=
  { s with classrooms := s.classrooms.map (classroom.test · day) }

/-- Python `school.total_students()`. -/
def total_students (s : school) : ℕ :=
  (s.classrooms.map fun clrm => clrm.students.length).sum

/-- Python `school.total_people()`. -/
def total_people (s : school) : ℕ :=
  (s.classrooms.map fun clrm => clrm.students.length + clrm.teachers.length).sum

/-- Value `num_families` computed inside `school.assign_to_random_families`:
`math.floor(total_students / students_per_family)`. -/
def num_families (s : school) (spf : ℚ) : ℕ :=
  (⌊(s.total_students : ℚ) / spf⌋).toNat

/-- Helper for `assign_to_random_families`: the loop distributing the
shuffled assignment list over the classrooms, consuming `class_size`
entries per classroom (`fam_assignments[0:class_size]` then deletion). -/
def distribute_families (cs : List classroom) (class_size : ℕ)
    (fams : List ℤ) : Option (List classroom) :=
  match cs with
  | [] => some []
  | clrm :: rest => do
    let stdts ← classroom.assign_to_families clrm.students (fams.take class_size)
    let rest' ← distribute_families rest class_size (fams.drop class_size)
    pure ({ clrm with students := stdts } :: rest')

/-- Python `school.assign_to_random_families()`.  The randomness is
parametrised: `shuffled` stands for the list `fam_assignments` as it is
after the `random.randint` appends and the `random.shuffle` call; theorems
constrain it to be a permutation of `list(range(num_families))` plus
`total_students - num_families` extra draws from `[0, num_families)`.
When `spf < 1` the source prints a message and returns with no mutation. -/
def assign_to_random_families (s : school) (spf : ℚ) (shuffled : List ℤ) :
    Option school :=
  if spf < 1 then some s
  else
    (distribute_families s.classrooms s.class_size shuffled).map fun cs =>
      { s with classrooms := cs }

/-- Set of family units having a contagious student somewhere in the school
(the `contagious_families` set built inside `school.spread_virus`). -/
def contagious_families (s : school) : List (Option ℤ) :=
  (s.classrooms.flatMap fun clrm =>
    clrm.students.filter person.is_contagious).map person.family_unit

/-- Intra-family phase of `school.spread_virus(day)`: every student whose
family unit has a contagious student anywhere in the school is sickened
(the `contagious_families` set is computed once, before any sickening). -/
def family_spread (s : school) (day : ℤ) : school :=
  { s with classrooms := s.classrooms.map fun clrm =>
      { clrm with students := clrm.students.map fun stdt =>
          if stdt.family_unit ∈ contagious_families s then stdt.sicken day
          else stdt } }

/-- Classroom phase of `school.spread_virus(day)`: on weekdays, every
non-offline classroom with a contagious case has everyone sickened. -/
def classroom_spread (s : school) (day : ℤ) : school :=
  if ¬ (day % 7 = 5 ∨ day % 7 = 6) then
    { s with classrooms := s.classrooms.map fun clrm =>
        if clrm.offline day = false then
          (if clrm.any_contagious_cases_in_classroom = true then
            clrm.sicken_all day
          else clrm)
        else clrm }
  else s

/-- Python `school.spread_virus(day)`: intra-classroom spread on weekdays
for non-offline classrooms with a contagious case, then intra-family
spread computed from the post-classroom-spread state. -/
def spread_virus (s : school) (day : ℤ) : school :=
  family_spread (classroom_spread s day) day

/-- Helper for `school.sicken_xth_person`: locate index `x` in one list of
people (`none` = the index is past the end of this list). -/
def sicken_xth_people (ps : List person) (x : ℕ) (exclude : String)
    (day : ℤ) : Option (List person × Bool) :=
  match ps with
  | [] => none
  | q :: qs =>
    if x = 0 then
      if (q.name.toList).IsInfix exclude.toList then some (q :: qs, false)
      else if q.is_sick = true then some (q :: qs, false)
      else some (q.sicken day :: qs, true)
    else
      (sicken_xth_people qs (x - 1) exclude day).map fun r => (q :: r.1, r.2)

/-- Helper for `school.sicken_xth_person`: walk the classrooms in order,
counting each classroom's students then its teachers, exactly as the
running counter `p` does in the source. -/
def sicken_xth_classrooms (cs : List classroom) (x : ℕ) (exclude : String)
    (day : ℤ) : Option (List classroom × Bool) :=
  match cs with
  | [] => none
  | clrm :: rest =>
    let people := clrm.students ++ clrm.teachers
    if x < people.length then
      (sicken_xth_people people x exclude day).map fun r =>
        ({ clrm with students := r.1.take clrm.students.length,
                     teachers := r.1.drop clrm.students.length } :: rest, r.2)
    else
      (sicken_xth_classrooms rest (x - people.length) exclude day).map
        fun r => (clrm :: r.1, r.2)

/-- Python `school.sicken_xth_person(x, exclude_list, day)`.  The driver
passes the string `"student_1_1"` as `exclude_list`, and Python's
`stdt.name in exclude_list` is substring containment, modelled by
`List.IsInfix` on the character lists.  `none` models falling off the end
(the source prints an error and returns `None`). -/
def sicken_xth_person (s : school) (x : ℕ) (exclude : String) (day : ℤ) :
    Option (school × Bool) :=
  (sicken_xth_classrooms s.classrooms x exclude day).map fun r =>
    ({ s with classrooms := r.1 }, r.2)

end school

/-- Python `determine_agg_warnings`: classifies one (test-day, contagious-day)
pair into one of the three warning tiers and bumps that tier's counter. -/
def determine_agg_warnings (earliest_positive_test_day : Option ℤ)
    (day_contagious : ℤ)
    (Agg_infections_no_warning Agg_infections_some_warning
      Agg_infections_good_warning : ℤ) : ℤ × ℤ × ℤ :=
  match earliest_positive_test_day with
  | none =>
    (Agg_infections_no_warning + 1, Agg_infections_some_warning,
      Agg_infections_good_warning)
  | some e =>
    if e + test_lag ≥ day_contagious + first_contagious_day then
      (Agg_infections_no_warning + 1, Agg_infections_some_warning,
        Agg_infections_good_warning)
    else if e + test_lag ≥ day_contagious then
      (Agg_infections_no_warning, Agg_infections_some_warning + 1,
        Agg_infections_good_warning)
    else
      (Agg_infections_no_warning, Agg_infections_some_warning,
        Agg_infections_good_warning + 1)

/-- Inline classification of the S1 individual of interest at trial end
(source lines 478-491), as a function of S1's cohort test record and the
individual's `day_contagious`, bumping the three S1 counters. -/
def S1_classify (earliest_positive_test_day : Option ℤ) (day_contagious : ℤ)
    (S1_infections_no_warning S1_infections_some_warning
      S1_infections_good_warning : ℤ) : ℤ × ℤ × ℤ :=
  match earliest_positive_test_day with
  | none =>
    (S1_infections_no_warning + 1, S1_infections_some_warning,
      S1_infections_good_warning)
  | some e =>
    if e + test_lag ≥ day_contagious + first_contagious_day then
      (S1_infections_no_warning + 1, S1_infections_some_warning,
        S1_infections_good_warning)
    else if e + test_lag ≥ day_contagious then
      (S1_infections_no_warning, S1_infections_some_warning + 1,
        S1_infections_good_warning)
    else
      (S1_infections_no_warning, S1_infections_some_warning,
        S1_infections_good_warning + 1)

/-- Aggregate classification block at trial end (source lines 509-560):
branches on which individuals of interest were infected within the
horizon; every branch classifies against S1's cohort test record
(`s2_earliest` is in scope in the source but never read). -/
def agg_classify (s1_day_infected s2_day_infected : ℤ)
    (s1_earliest s2_earliest : Option ℤ) (nw sw gw : ℤ) : ℤ × ℤ × ℤ :=
  if s1_day_infected ≤ N_days ∧ s2_day_infected ≤ N_days then
    determine_agg_warnings s1_earliest
      (min (s1_day_infected + first_contagious_day)
        (s2_day_infected + first_contagious_day)) nw sw gw
  else if s1_day_infected ≤ N_days then
    determine_agg_warnings s1_earliest
      (s1_day_infected + first_contagious_day) nw sw gw
  else if s2_day_infected ≤ N_days then
    determine_agg_warnings s1_earliest
      (s2_day_infected + first_contagious_day) nw sw gw
  else (nw, sw, gw)

/-- The S1 school exactly as the driver builds it each trial:
`school("S1_school", S1_classes_in_school, S1_class_size,
[5]*S1_class_size, S1_teachers)`. -/
def S1_school : school :=
  school.init "S1_school" S1_classes_in_school S1_class_size
    (List.replicate S1_class_size 5) S1_teachers

/-- Tier rule as the spec words it: no warning iff the test record is null
or the result arrives at or after `day_contagious + first_contagious_day`. -/
def no_warning_rule (T : Option ℤ) (day_contagious : ℤ) : Prop :=
  T = none ∨
    ∃ t, T = some t ∧ t + test_lag ≥ day_contagious + first_contagious_day

/-- Tier rule as the spec words it: otherwise, some warning iff the result
arrives at or after `day_contagious`. -/
def some_warning_rule (T : Option ℤ) (day_contagious : ℤ) : Prop :=
  ¬ no_warning_rule T day_contagious ∧
    ∃ t, T = some t ∧ t + test_lag ≥ day_contagious

/-- Tier rule as the spec words it: good warning in the remaining case. -/
def good_warning_rule (T : Option ℤ) (day_contagious : ℤ) : Prop :=
  ¬ no_warning_rule T day_contagious ∧
    ¬ ∃ t, T = some t ∧ t + test_lag ≥ day_contagious

/-- Concrete cohort whose only positive-testing member is a staff member:
one never-infected student, one teacher five days into infection. -/
def staff_only_positive_cohort : classroom :=
  { number := 1
    students := [person.init "student_1_0" 5]
    teachers := [{ person.init "teacher_1_0" 30 with days_with_virus := 5 }]
    earliest_positive_test_day := none }

/-- Concrete classroom holding a contagious student of family 7. -/
def weekend_classroom_1 : classroom :=
  { number := 1
    students := [{ person.init "student_1_0" 5 with
      days_with_virus := 3, family_unit := some 7 }]
    teachers := []
    earliest_positive_test_day := none }

/-- Concrete classroom holding a healthy student of family 7. -/
def weekend_classroom_2 : classroom :=
  { number := 2
    students := [{ person.init "student_2_0" 5 with family_unit := some 7 }]
    teachers := []
    earliest_positive_test_day := none }

/-- Concrete two-classroom school: a contagious student in classroom 1
shares family 7 with a healthy student in classroom 2. -/
def weekend_example_school : school :=
  { name := "W"
    classrooms := [weekend_classroom_1, weekend_classroom_2]
    class_size := 1 }

/-- Concrete classroom with a positive test already on record on day 2. -/
def detected_cohort : classroom :=
  { number := 1
    students := [{ person.init "student_1_0" 5 with days_with_virus := 5 }]
    teachers := []
    earliest_positive_test_day := some 2 }

/-- Concrete two-classroom, four-student school for exercising the family
assignment. -/
def family_example_school : school :=
  school.init "W" 2 2 [5, 5] 1

/-! Theorems. -/

/-- C5: for every individual, `is_contagious()` holds exactly when
`first_contagious_day ≤ infection_timer < last_contagious_day`, and
`tests_positive()` exactly when
`first_positive_test_day < infection_timer ≤ last_positive_test_day`. -/
theorem predicate_windows_exact (p : person) :
    (p.is_contagious = true ↔
      first_contagious_day ≤ p.days_with_virus ∧
        p.days_with_virus < last_contagious_day) ∧
    (p.tests_positive = true ↔
      first_positive_test_day < p.days_with_virus ∧
        p.days_with_virus ≤ last_positive_test_day) := by
  constructor
  · unfold person.is_contagious
    split <;> simp_all
  · unfold person.tests_positive
    split <;> simp_all

/-- C10: the inline per-trial classification of the S1 individual of
interest and the helper `determine_agg_warnings` assign the same warning
tier on every input. -/
theorem S1_classify_eq_determine_agg_warnings (e : Option ℤ)
    (dc nw sw gw : ℤ) :
    S1_classify e dc nw sw gw = determine_agg_warnings e dc nw sw gw := by
  cases e <;> rfl

/-- C8: when `students_per_family < 1`, `assign_to_random_families` returns
normally with every member (hence every `family_unit`) exactly as before. -/
theorem assign_families_config_error (s : school) (spf : ℚ)
    (shuffled : List ℤ) (h : spf < 1) :
    school.assign_to_random_families s spf shuffled = some s := by
  unfold school.assign_to_random_families
  simp [h]

/-- Witness for `assign_families_config_error` at `spf = 1/2`. -/
theorem assign_families_config_error_witness :
    school.assign_to_random_families S1_school (1 / 2) [] = some S1_school :=
  assign_families_config_error S1_school (1 / 2) [] (by norm_num)

/-- C3: the trial-end aggregate classification uses the minimum of the two
individuals' `day_infected + first_contagious_day` values when both are
infected within the horizon and the single infected individual's value
when exactly one is, and in every branch classifies against institution
1's cohort test record (`t1`), never institution 2's. -/
theorem agg_classification_branches (d1 d2 : ℤ) (t1 t2 : Option ℤ)
    (nw sw gw : ℤ) :
    (d1 ≤ N_days → d2 ≤ N_days →
      agg_classify d1 d2 t1 t2 nw sw gw =
        determine_agg_warnings t1
          (min (d1 + first_contagious_day) (d2 + first_contagious_day))
          nw sw gw) ∧
    (d1 ≤ N_days → ¬ d2 ≤ N_days →
      agg_classify d1 d2 t1 t2 nw sw gw =
        determine_agg_warnings t1 (d1 + first_contagious_day) nw sw gw) ∧
    (¬ d1 ≤ N_days → d2 ≤ N_days →
      agg_classify d1 d2 t1 t2 nw sw gw =
        determine_agg_warnings t1 (d2 + first_contagious_day) nw sw gw) := by
  unfold agg_classify
  refine ⟨fun h1 h2 => ?_, fun h1 h2 => ?_, fun h1 h2 => ?_⟩ <;>
    simp [h1, h2]

/-- Witness for `agg_classification_branches` with both individuals
infected on days 5 and 7. -/
theorem agg_classification_branches_witness :
    agg_classify 5 7 (some 2) (some 0) 0 0 0 =
      determine_agg_warnings (some 2)
        (min ((5 : ℤ) + first_contagious_day)
          ((7 : ℤ) + first_contagious_day)) 0 0 0 :=
  (agg_classification_branches 5 7 (some 2) (some 0) 0 0 0).1
    (by decide) (by decide)

/-- C4: `determine_agg_warnings` realises the three-tier rule: the tiers
are mutually exclusive and exhaustive, and exactly the counter of the tier
selected by the rule is incremented, by exactly 1. -/
theorem determine_agg_warnings_exactly_one (T : Option ℤ) (dc nw sw gw : ℤ) :
    ((no_warning_rule T dc ∧ ¬ some_warning_rule T dc ∧
        ¬ good_warning_rule T dc) ∨
      (¬ no_warning_rule T dc ∧ some_warning_rule T dc ∧
        ¬ good_warning_rule T dc) ∨
      (¬ no_warning_rule T dc ∧ ¬ some_warning_rule T dc ∧
        good_warning_rule T dc)) ∧
    (no_warning_rule T dc →
      determine_agg_warnings T dc nw sw gw = (nw + 1, sw, gw)) ∧
    (some_warning_rule T dc →
      determine_agg_warnings T dc nw sw gw = (nw, sw + 1, gw)) ∧
    (good_warning_rule T dc →
      determine_agg_warnings T dc nw sw gw = (nw, sw, gw + 1)) := by
  cases T with
  | none =>
    simp [no_warning_rule, some_warning_rule, good_warning_rule,
      determine_agg_warnings]
  | some t =>
    by_cases h1 : t + test_lag ≥ dc + first_contagious_day <;>
      by_cases h2 : t + test_lag ≥ dc <;>
        simp [no_warning_rule, some_warning_rule, good_warning_rule,
          determine_agg_warnings, h1, h2] <;> omega

/-- Witness for `determine_agg_warnings_exactly_one`: `T = 5`, `dc = 3`
lands in the no-warning tier and bumps only the first counter. -/
theorem determine_agg_warnings_exactly_one_witness :
    no_warning_rule (some 5) 3 ∧
      determine_agg_warnings (some 5) 3 0 0 0 = (1, 0, 0) :=
  ⟨Or.inr ⟨5, rfl, by decide⟩,
    (determine_agg_warnings_exactly_one (some 5) 3 0 0 0).2.1
      (Or.inr ⟨5, rfl, by decide⟩)⟩

/-- C1 (failing-input evaluation): the driver's seeding call on the very
index of the S1 individual of interest — flattened index 0, exclude list
`"student_1_1"` — sickens that individual (named `"student_1_0"`) and
returns `True`, because the exclude list names a different student. -/
theorem seeding_sickens_S1_individual_of_interest :
    (school.sicken_xth_person S1_school 0 "student_1_1" 0).map
      (fun r => (r.2,
        ((r.1.classrooms.headD default).students.headD default).name,
        ((r.1.classrooms.headD default).students.headD default).days_with_virus,
        ((r.1.classrooms.headD default).students.headD default).day_infected))
    = some (true, "student_1_0", 0, 0) := by decide

/-- Helper: the fold inside `classroom.test` never changes an accumulator
that is already set. -/
theorem test_foldl_preserves_some (l : List person) (day d : ℤ) :
    l.foldl
      (fun e stdt =>
        if stdt.tests_positive = true then
          if e = none then some day else e
        else e)
      (some d) = some d := by
  induction l with
  | nil => rfl
  | cons q qs ih =>
    by_cases hq : q.tests_positive = true <;> simp [hq, ih]

/-- Helper: starting unset, the fold inside `classroom.test` yields `day`
precisely when some student tests positive. -/
theorem test_foldl_from_none (l : List person) (day : ℤ) :
    l.foldl
      (fun e stdt =>
        if stdt.tests_positive = true then
          if e = none then some day else e
        else e)
      none = if l.any person.tests_positive = true then some day
        else none := by
  induction l with
  | nil => rfl
  | cons q qs ih =>
    by_cases hq : q.tests_positive = true <;>
      simp [hq, ih, test_foldl_preserves_some]

/-- C9: once `earliest_positive_test_day` is set, no sequence of further
`test` calls — on any days, whatever the members' states — changes it. -/
theorem first_detection_wins (c : classroom) (d : ℤ) (days : List ℤ)
    (h : c.earliest_positive_test_day = some d) :
    (days.foldl classroom.test c).earliest_positive_test_day = some d := by
  induction days generalizing c with
  | nil => exact h
  | cons day rest ih =>
    rw [List.foldl_cons]
    apply ih
    simp [classroom.test, h, test_foldl_preserves_some]

/-- Witness for `first_detection_wins`: a cohort detected on day 2 keeps
that record through tests on days 3 and 4. -/
theorem first_detection_wins_witness :
    (([3, 4] : List ℤ).foldl classroom.test
      detected_cohort).earliest_positive_test_day = some 2 :=
  first_detection_wins detected_cohort 2 [3, 4] rfl

/-- C2 counterexample: in `staff_only_positive_cohort` the teacher tests
positive and the field is unset, yet `test` leaves the field unset. -/
theorem staff_positive_not_recorded_counterexample :
    person.tests_positive
        { person.init "teacher_1_0" 30 with days_with_virus := 5 } = true ∧
      staff_only_positive_cohort.earliest_positive_test_day = none ∧
      (classroom.test staff_only_positive_cohort 3).earliest_positive_test_day
        = none := by decide

/-- C2 amended: `record_test_result` examines exactly the regular members:
the field becomes `day` iff it was unset and some regular member tests
positive, and is unchanged otherwise; staff members never influence it. -/
theorem test_examines_students_only (c : classroom) (day : ℤ) :
    (classroom.test c day).earliest_positive_test_day =
      if c.earliest_positive_test_day = none ∧
          c.students.any person.tests_positive = true
      then some day
      else c.earliest_positive_test_day := by
  cases h : c.earliest_positive_test_day with
  | some d => simp [classroom.test, h, test_foldl_preserves_some]
  | none => simp [classroom.test, h, test_foldl_from_none]

/-- C6: on a weekend day the classroom channel does nothing — the daily
update equals the intra-family phase alone — while family spread still
runs: every student whose family unit has a contagious student anywhere
in the school is sick afterwards. -/
theorem weekend_family_spread_only (s : school) (day : ℤ)
    (hday : day % 7 = 5 ∨ day % 7 = 6) :
    school.spread_virus s day = school.family_spread s day ∧
    ∀ (i j : ℕ) (clrm : classroom) (stdt : person),
      s.classrooms[i]? = some clrm →
      clrm.students[j]? = some stdt →
      -1 ≤ stdt.days_with_virus →
      stdt.family_unit ∈ school.contagious_families s →
      ∃ stdt',
        (((school.spread_virus s day).classrooms[i]?).bind
          fun c => c.students[j]?) = some stdt' ∧
        stdt'.is_sick = true := by
  have hcs : school.classroom_spread s day = s := by
    unfold school.classroom_spread
    rw [if_neg (not_not_intro hday)]
  have h1 : school.spread_virus s day = school.family_spread s day := by
    unfold school.spread_virus
    rw [hcs]
  refine ⟨h1, ?_⟩
  intro i j clrm stdt hi hj htimer hfam
  refine ⟨stdt.sicken day, ?_, ?_⟩
  · rw [h1]
    unfold school.family_spread
    simp [List.getElem?_map, hi, hj, hfam]
  · unfold person.sicken person.is_sick
    by_cases hd : stdt.days_with_virus = -1
    · simp [hd]
    · rw [if_neg hd]
      rw [if_pos (show stdt.days_with_virus > -1 by omega)]

/-- Witness for `weekend_family_spread_only`: day 5 on the concrete school
where classroom 2's healthy student shares family 7 with classroom 1's
contagious student. -/
theorem weekend_family_spread_only_witness :
    school.spread_virus weekend_example_school 5 =
      school.family_spread weekend_example_school 5 ∧
    ∃ stdt',
      (((school.spread_virus weekend_example_school 5).classrooms[1]?).bind
        fun c => c.students[0]?) = some stdt' ∧
      stdt'.is_sick = true :=
  ⟨(weekend_family_spread_only weekend_example_school 5 (by decide)).1,
    (weekend_family_spread_only weekend_example_school 5 (by decide)).2
      1 0 weekend_classroom_2
      { person.init "student_2_0" 5 with family_unit := some 7 }
      (by decide) (by decide) (by decide) (by decide)⟩

/-- Helper: with enough family ids, `assign_to_families` succeeds and hands
student `i` the `i`-th id of the list. -/
theorem assign_to_families_spec (students : List person) (fams : List ℤ)
    (h : students.length ≤ fams.length) :
    ∃ r, classroom.assign_to_families students fams = some r ∧
      r.map person.family_unit = (fams.take students.length).map some := by
  induction students generalizing fams with
  | nil => exact ⟨[], rfl, by simp⟩
  | cons s ss ih =>
    cases fams with
    | nil => simp at h
    | cons f fs =>
      obtain ⟨r, hr, hmap⟩ := ih fs (by simpa using h)
      refine ⟨s.assign_to_family f :: r, ?_, ?_⟩
      · simp [classroom.assign_to_families, hr]
      · simp [hmap, person.assign_to_family]

/-- Helper: total student count of a uniform list of classrooms. -/
theorem total_students_of_uniform (cs : List classroom) (k : ℕ)
    (h : ∀ c ∈ cs, c.students.length = k) :
    (cs.map fun c => c.students.length).sum = cs.length * k := by
  induction cs with
  | nil => simp
  | cons c rest ih =>
    have hc := h c (by simp)
    have hrest := ih fun c hc => h c (by simp [hc])
    simp [hc, hrest]
    ring

/-- Helper: distributing over classrooms of uniform size `k` succeeds and
consumes the first `cs.length * k` family ids, in order. -/
theorem distribute_families_spec (cs : List classroom) (k : ℕ)
    (fams : List ℤ) (hsz : ∀ c ∈ cs, c.students.length = k)
    (hlen : cs.length * k ≤ fams.length) :
    ∃ cs', school.distribute_families cs k fams = some cs' ∧
      (cs'.flatMap fun c => c.students.map person.family_unit) =
        (fams.take (cs.length * k)).map some := by
  induction cs generalizing fams with
  | nil => exact ⟨[], rfl, by simp⟩
  | cons c rest ih =>
    have hck : c.students.length = k := hsz c (by simp)
    have hlen' : rest.length * k + k ≤ fams.length := by
      rw [List.length_cons, Nat.succ_mul] at hlen
      exact hlen
    have hstu : c.students.length ≤ (fams.take k).length := by
      rw [hck, List.length_take]
      exact Nat.le_min.mpr ⟨le_refl _, by omega⟩
    obtain ⟨r, hr, hrmap⟩ := assign_to_families_spec c.students (fams.take k) hstu
    obtain ⟨cs', hcs', hmap'⟩ := ih (fams.drop k)
      (fun c hc => hsz c (by simp [hc]))
      (by rw [List.length_drop]; omega)
    refine ⟨{ c with students := r } :: cs', ?_, ?_⟩
    · simp [school.distribute_families, hr, hcs']
    · have hr' : ({ c with students := r } : classroom).students = r := rfl
      rw [List.flatMap_cons, hr', hrmap, hck, List.take_take, min_self,
        hmap', List.length_cons, Nat.succ_mul, Nat.add_comm,
        List.take_add, List.map_append]

/-- C7: with every classroom at exactly `class_size` students and an
average family size of at least 1, `assign_to_random_families` gives every
student exactly one family unit, lying in `[0, num_families)`, and the
students' distinct family units number exactly `num_families`. -/
theorem assign_families_invariant (s : school) (spf : ℚ)
    (extra shuffled : List ℤ)
    (hcs : ∀ c ∈ s.classrooms, c.students.length = s.class_size)
    (hspf : 1 ≤ spf)
    (hextra_len : extra.length = s.total_students - s.num_families spf)
    (hextra_mem : ∀ x ∈ extra, 0 ≤ x ∧ x < (s.num_families spf : ℤ))
    (hperm : shuffled.Perm
      ((List.range (s.num_families spf)).map Int.ofNat ++ extra)) :
    ∃ s', school.assign_to_random_families s spf shuffled = some s' ∧
      (∀ clrm ∈ s'.classrooms, ∀ stdt ∈ clrm.students,
        ∃ f, stdt.family_unit = some f ∧ 0 ≤ f ∧
          f < (s.num_families spf : ℤ)) ∧
      (s'.classrooms.flatMap fun clrm =>
          clrm.students.map person.family_unit).toFinset.card
        = s.num_families spf := by
  have hnf_le : s.num_families spf ≤ s.total_students := by
    unfold school.num_families
    have h1 : (s.total_students : ℚ) / spf ≤ (s.total_students : ℚ) :=
      div_le_self (by positivity) hspf
    have h2 : ⌊(s.total_students : ℚ) / spf⌋ ≤ (s.total_students : ℤ) := by
      calc ⌊(s.total_students : ℚ) / spf⌋
          ≤ ⌊(s.total_students : ℚ)⌋ := Int.floor_le_floor h1
        _ = (s.total_students : ℤ) := Int.floor_natCast _
    exact Int.toNat_le.mpr h2
  have hlen_sh : shuffled.length = s.total_students := by
    have hl := hperm.length_eq
    rw [List.length_append, List.length_map, List.length_range,
      hextra_len] at hl
    omega
  have htot : s.classrooms.length * s.class_size = s.total_students :=
    (total_students_of_uniform s.classrooms s.class_size hcs).symm
  obtain ⟨cs', hdist, hmap⟩ :=
    distribute_families_spec s.classrooms s.class_size shuffled hcs
      (by rw [htot, hlen_sh])
  have hmap' : (cs'.flatMap fun c => c.students.map person.family_unit)
      = shuffled.map some := by
    rw [hmap, htot, ← hlen_sh, List.take_length]
  refine ⟨{ s with classrooms := cs' }, ?_, ?_, ?_⟩
  · unfold school.assign_to_random_families
    rw [if_neg (not_lt.mpr hspf)]
    simp [hdist]
  · intro clrm hclrm stdt hstdt
    have hmem : stdt.family_unit ∈
        (cs'.flatMap fun c => c.students.map person.family_unit) :=
      List.mem_flatMap.mpr ⟨clrm, hclrm, List.mem_map_of_mem _ hstdt⟩
    rw [hmap'] at hmem
    obtain ⟨f, hf_mem, hf_eq⟩ := List.mem_map.mp hmem
    refine ⟨f, hf_eq.symm, ?_⟩
    have hf_base : f ∈ (List.range (s.num_families spf)).map Int.ofNat
        ++ extra := hperm.mem_iff.mp hf_mem
    rcases List.mem_append.mp hf_base with h | h
    · obtain ⟨m, hm, rfl⟩ := List.mem_map.mp h
      have hmr := List.mem_range.mp hm
      simp only [Int.ofNat_eq_natCast]
      omega
    · exact hextra_mem f h
  · have hinj : Function.Injective ((some : ℤ → Option ℤ) ∘ Int.ofNat) := by
      intro a b hab
      simpa using hab
    have h3 : (((List.range (s.num_families spf)).map Int.ofNat
          ++ extra).map some).toFinset =
        ((List.range (s.num_families spf)).map
          ((some : ℤ → Option ℤ) ∘ Int.ofNat)).toFinset := by
      rw [List.map_append, List.toFinset_append, List.map_map]
      apply Finset.union_eq_left.mpr
      intro x hx
      obtain ⟨e, he_mem, rfl⟩ := List.mem_map.mp (List.mem_toFinset.mp hx)
      obtain ⟨he0, helt⟩ := hextra_mem e he_mem
      apply List.mem_toFinset.mpr
      apply List.mem_map.mpr
      refine ⟨e.toNat, List.mem_range.mpr (by omega), ?_⟩
      simp [Int.toNat_of_nonneg he0]
    have hnodup : ((List.range (s.num_families spf)).map
        ((some : ℤ → Option ℤ) ∘ Int.ofNat)).Nodup :=
      (List.nodup_range _).map hinj
    calc (({ s with classrooms := cs' } : school).classrooms.flatMap
            fun clrm => clrm.students.map person.family_unit).toFinset.card
        = (shuffled.map some).toFinset.card := by rw [show ({ s with classrooms := cs' } : school).classrooms = cs' from rfl, hmap']
      _ = (((List.range (s.num_families spf)).map Int.ofNat
            ++ extra).map some).toFinset.card := by
          rw [List.toFinset_eq_of_perm _ _ (hperm.map some)]
      _ = ((List.range (s.num_families spf)).map
            ((some : ℤ → Option ℤ) ∘ Int.ofNat)).toFinset.card := by rw [h3]
      _ = s.num_families spf := by
          rw [List.toFinset_card_of_nodup hnodup, List.length_map,
            List.length_range]

/-- Witness for `assign_families_invariant`: the four-student school with
an average family size of 2, base families 0 and 1, extra draws 0 and 1,
and an identity shuffle. -/
theorem assign_families_invariant_witness :
    ∃ s', school.assign_to_random_families family_example_school 2
        [0, 1, 0, 1] = some s' ∧
      (∀ clrm ∈ s'.classrooms, ∀ stdt ∈ clrm.students,
        ∃ f, stdt.family_unit = some f ∧ 0 ≤ f ∧
          f < (family_example_school.num_families 2 : ℤ)) ∧
      (s'.classrooms.flatMap fun clrm =>
          clrm.students.map person.family_unit).toFinset.card
        = family_example_school.num_families 2 := by
  have ht : family_example_school.total_students = 4 := by decide
  have hfl : (⌊((4 : ℕ) : ℚ) / 2⌋) = 2 := by norm_num
  have hnf : family_example_school.num_families 2 = 2 := by
    unfold school.num_families
    rw [ht, hfl]
    rfl
  exact assign_families_invariant family_example_school 2 [0, 1] [0, 1, 0, 1]
    (by decide) (by norm_num)
    (by rw [ht, hnf]; rfl)
    (by rw [hnf]; decide)
    (by rw [hnf]; decide)
